import Mathlib

/-!
Verification development for the board-game server core: a shallow embedding of
`src/game_core/src/game_controller.rs` (namespace `Core`) and
`src/rules/src/game_rule_checker.rs` (namespace `Rules`), together with theorems
settling the behavioural claims about them.

The two source files come from two snapshots of the crate layout (the rules file
sees a larger `PlayerInputType` enum than the controller file), so each gets its
own self-contained namespace.  Items of `game_data.rs` — which is not part of the
given sources — are either abstracted into explicit parameters (`Core.GameData`)
or modelled from the specification; every such definition carries a comment
saying so.
-/

namespace Core

abbrev PlayerID := Int
abbrev GameID := Int
abbrev NodeID := Int

/-- The in-game role identities.  Modelled from the spec: a fixed small enum with
the privileged `Orchestrator` role; the exact list of member roles lives in the
missing `game_data.rs`. -/
inductive InGameID where
  | Undecided
  | PlayerOne
  | PlayerTwo
  | PlayerThree
  | PlayerFour
  | PlayerFive
  | Orchestrator
deriving DecidableEq, Repr

inductive RestrictionType where
  | ParkAndRide
  | OneWay
  | Destination
deriving DecidableEq, Repr

inductive DistrictModifierType where
  | Access
  | Priority
  | Toll
deriving DecidableEq, Repr

/-- District modifier record.  Fields per the spec data model:
`(district, modifier-kind, optional vehicle-type, delete-flag)`. -/
structure DistrictModifier where
  district : Nat
  modifier : DistrictModifierType
  vehicle_type : Option RestrictionType
  delete : Bool
deriving DecidableEq, Repr

/-- The controller file's input-kind enum (`game_controller.rs` matches
exhaustively on exactly these six variants). -/
inductive PlayerInputType where
  | Movement
  | ChangeRole
  | All
  | NextTurn
  | UndoAction
  | ModifyDistrict
deriving DecidableEq, Repr

structure Player where
  unique_id : PlayerID
  in_game_id : InGameID
  remaining_moves : Int
deriving DecidableEq, Repr

structure PlayerInput where
  player_id : PlayerID
  game_id : GameID
  input_type : PlayerInputType
  related_role : Option InGameID
  related_node_id : Option NodeID
  district_modifier : Option DistrictModifier
deriving DecidableEq, Repr

structure GameState where
  id : GameID
  name : String
  is_lobby : Bool
  players : List Player
  actions : List PlayerInput
  district_modifiers : List DistrictModifier
  current_players_turn : InGameID
deriving DecidableEq, Repr

/-- Modelled from the spec: the pieces of the missing `game_data.rs` that
`game_controller.rs` calls into, abstracted as explicit parameters so that the
controller theorems hold for every implementation of them:
`GameState::move_player_with_id`, `GameState::assign_player_role`, and the three
numeric cap constants `MAX_ACCESS_MODIFIER_COUNT`, `MAX_PRIORITY_MODIFIER_COUNT`,
`MAX_TOLL_MODIFIER_COUNT` (their numeric values are not in the given sources).
In the source these methods mutate the game in place; here they return the new
state, with errors carrying no partial mutation — on every path the claims
touch, the source applies them to disposable clones only. -/
structure GameData where
  move_player_with_id : PlayerID → NodeID → GameState → Except String GameState
  assign_player_role : PlayerID → InGameID → GameState → Except String GameState
  maxAccessModifierCount : Nat
  maxPriorityModifierCount : Nat
  maxTollModifierCount : Nat

/-- Modelled from the spec: the fixed role rotation used by
`GameState::next_player_turn` ("the turn pointer advances to the next role in a
fixed rotation"); the concrete rotation order lives in the missing
`game_data.rs`. -/
def nextRole : InGameID → InGameID
  | .Undecided => .Orchestrator
  | .Orchestrator => .PlayerOne
  | .PlayerOne => .PlayerTwo
  | .PlayerTwo => .PlayerThree
  | .PlayerThree => .PlayerFour
  | .PlayerFour => .PlayerFive
  | .PlayerFive => .Orchestrator

/-- Modelled from the spec: `GameState::next_player_turn` advances the turn
pointer to the next role in the fixed rotation. -/
def GameState.next_player_turn (g : GameState) : GameState :=
  { g with current_players_turn := nextRole g.current_players_turn }

/-- Modelled from the spec: `GameState::get_starting_player_movement_value`, the
configured per-turn remaining-moves allotment (numeric value not in the given
sources; any positive value exhibits the same behaviour). -/
def get_starting_player_movement_value : Int := 6

/-- `GameController::handle_movement`. -/
def handle_movement (gd : GameData) (input : PlayerInput) (g : GameState) :
    Except String GameState :=
  match input.related_node_id with
  | none => .error "There was no node related to the movement!"
  | some nid =>
    match gd.move_player_with_id input.player_id nid g with
    | .ok g2 => .ok g2
    | .error e => .error ("Failed to move player because: " ++ e)

/-- `GameController::change_role_player`. -/
def change_role_player (gd : GameData) (input : PlayerInput) (g : GameState) :
    Except String GameState :=
  match input.related_role with
  | none => .error "There was no related role to change to!"
  | some r => gd.assign_player_role input.player_id r g

/-- The per-kind cap selected by `handle_district_restriction`. -/
def max_modifier_amount (gd : GameData) : DistrictModifierType → Nat
  | .Access => gd.maxAccessModifierCount
  | .Priority => gd.maxPriorityModifierCount
  | .Toll => gd.maxTollModifierCount

/-- `GameController::handle_district_restriction`.  Note the guard is transcribed
exactly as in the source: `if max_amount >= count { return Err(..) }`, i.e. the
addition fails whenever the current count is at most the cap. -/
def handle_district_restriction (gd : GameData) (input : PlayerInput)
    (g : GameState) : Except String GameState :=
  match input.district_modifier with
  | none => .error "There was no district in the input modifier even though it was marked as a district input"
  | some district_modifier =>
    if district_modifier.delete then
      let distr_mod := { district_modifier with delete := false }
      match g.district_modifiers.findIdx? (fun d_m => decide (d_m = distr_mod)) with
      | none => .error "There is no modifier like the given one in the game!"
      | some mod_pos =>
        .ok { g with district_modifiers := g.district_modifiers.eraseIdx mod_pos }
    else
      let max_amount := max_modifier_amount gd district_modifier.modifier
      if (g.district_modifiers.filter
            (fun m => decide (m.modifier = district_modifier.modifier))).length ≤ max_amount then
        .error "Cannot add more modifiers of this type because there are already the maximum amount of modifiers of that type!"
      else
        .ok { g with district_modifiers := g.district_modifiers ++ [district_modifier] }

/-- `GameController::apply_input`. -/
def apply_input (gd : GameData) (input : PlayerInput) (g : GameState) :
    Except String GameState :=
  match input.input_type with
  | .Movement => handle_movement gd input g
  | .ChangeRole =>
    match change_role_player gd input g with
    | .ok g2 => .ok g2
    | .error e => .error e
  | .All => .error "This input type should not be used by players"
  | .NextTurn => .error "This is not an action that can be handled by GameController::apply_input!"
  | .UndoAction => .error "This cannot be done in GameController::apply_input!"
  | .ModifyDistrict => handle_district_restriction gd input g

/-- Replay of a list of staged actions into a state, failing at the first action
whose application fails (the loop bodies of `apply_game_actions` and
`add_action`). -/
def applyActionsList (gd : GameData) : List PlayerInput → GameState → Except String GameState
  | [], g => .ok g
  | a :: rest, g =>
    match apply_input gd a g with
    | .ok g2 => applyActionsList gd rest g2
    | .error e => .error e

/-- `GameController::apply_game_actions`: replays the state's own pending log
into it (callers pass a clone); a failure message gets the source's suffix. -/
def apply_game_actions (gd : GameData) (g : GameState) : Except String GameState :=
  match applyActionsList gd g.actions g with
  | .ok g2 => .ok g2
  | .error e => .error (e ++ " No actions are applied to the game.")

/-- `GameController::game_next_turn`: replay the pending log into a clone; on
success the clone becomes the state, the log is cleared and the turn advances;
on failure the state is untouched. -/
def game_next_turn (gd : GameData) (g : GameState) : Except String GameState :=
  match apply_game_actions gd g with
  | .error e => .error e
  | .ok g2 => .ok (GameState.next_player_turn { g2 with actions := [] })

/-- `GameController::add_action`: replays the existing log plus the new input
into a clone; only on success is the input appended to the authoritative log. -/
def add_action (gd : GameData) (input : PlayerInput) (g : GameState) :
    Except String GameState :=
  match applyActionsList gd g.actions g with
  | .error e => .error e
  | .ok g1 =>
    match apply_input gd input g1 with
    | .ok _ => .ok { g with actions := g.actions ++ [input] }
    | .error e => .error e

/-- `GameController::handle_input`.  Returned as (result, state after the call):
in the source the game is mutated through `&mut`; every error path the claims
touch leaves it unchanged. -/
def handle_input (gd : GameData) (input : PlayerInput) (g : GameState) :
    Except String Unit × GameState :=
  if input.input_type = PlayerInputType.NextTurn then
    match game_next_turn gd g with
    | .ok g2 => (.ok (), g2)
    | .error e => (.error e, g)
  else if input.input_type = PlayerInputType.UndoAction then
    match g.actions with
    | [] => (.error "There is no action to undo!", g)
    | _ :: _ => (.ok (), { g with actions := g.actions.dropLast })
  else if input.input_type = PlayerInputType.ChangeRole then
    match apply_input gd input g with
    | .ok g2 => (.ok (), g2)
    | .error e => (.error e, g)
  else
    match add_action gd input g with
    | .ok g2 => (.ok (), g2)
    | .error e => (.error e, g)

/-- `GameController::start_game`.  Returned as (result, state after the call).
The source's remaining-moves reset loop is
`for mut player in &gamestate.players { player.remaining_moves = ... }`: it
iterates a shared borrow of the player list, so the assignment cannot update the
stored players (as written it is not even a legal mutation of them); the stored
players are therefore unchanged and the loop is embedded as having no effect. -/
def start_game (g : GameState) : Except String GameState × GameState :=
  match g.players.find? (fun p => decide (p.in_game_id = InGameID.Orchestrator)) with
  | none => (.error "Unable to start game because lobby does not have an orchestrator", g)
  | some _ =>
    if g.players.length < 2 then
      (.error "Unable to start game because there are not enough players", g)
    else
      (.ok { g with is_lobby := false }, { g with is_lobby := false })

/-- The controller's own state: the active games and the identity registry.
`Instant` check-in stamps are modelled as natural-number clock readings, with
the current time passed explicitly to the operations that consult the clock. -/
structure GameController where
  games : List GameState
  unique_ids : List (PlayerID × Nat)
deriving DecidableEq, Repr

def PLAYER_TIMEOUT : Nat := 90

/-- `GameController::remove_empty_games`. -/
def remove_empty_games (c : GameController) : GameController :=
  { c with games := c.games.filter (fun g => decide (0 < g.players.length)) }

/-- `GameController::remove_inactive_ids`: keep entries whose elapsed time since
check-in is below the timeout. -/
def remove_inactive_ids (now : Nat) (c : GameController) : GameController :=
  { c with unique_ids := c.unique_ids.filter (fun e => decide (now - e.2 < PLAYER_TIMEOUT)) }

/-- `GameController::get_created_games`: (returned list, state after the call). -/
def get_created_games (c : GameController) : List GameState × GameController :=
  let c2 := remove_empty_games c
  (c2.games, c2)

/-- `GameController::get_all_lobbies` (a `&self` method: no state change). -/
def get_all_lobbies (c : GameController) : List GameState :=
  c.games.filter (fun g => g.is_lobby)

/-- `GameController::get_game_by_id` (a `&self` method: no state change): finds
the game, then replays its pending log into a clone and reports the clone. -/
def get_game_by_id (gd : GameData) (c : GameController) (game_id : GameID) :
    Except String GameState :=
  match c.games.find? (fun g => decide (g.id = game_id)) with
  | none => .error "There is no game with that id!"
  | some g => apply_game_actions gd g

/-- Modelled from the spec: `GameState::remove_player_with_id` (missing
`game_data.rs`) removes the player with the given unique id from the game. -/
def GameState.remove_player_with_id (pid : PlayerID) (g : GameState) : GameState :=
  { g with players := g.players.filter (fun p => decide (p.unique_id ≠ pid)) }

/-- `GameController::remove_player_from_game`. -/
def remove_player_from_game (pid : PlayerID) (c : GameController) : GameController :=
  { c with games := c.games.map (fun g =>
      if g.players.any (fun p => decide (p.unique_id = pid)) then
        GameState.remove_player_with_id pid g
      else g) }

/-- `GameController::update_check_in_and_remove_inactive`: refresh the stamp of
every entry with the given id, then purge inactive ids and empty games. -/
def update_check_in_and_remove_inactive (now : Nat) (pid : PlayerID)
    (c : GameController) : GameController :=
  let c1 := { c with unique_ids := c.unique_ids.map (fun e =>
    if e.1 = pid then (e.1, now) else e) }
  remove_empty_games (remove_inactive_ids now c1)

/-- Replace the first game carrying the given id (the source mutates the first
match of `iter_mut().find(..)` in place). -/
def replaceFirstGame (gid : GameID) (g2 : GameState) : List GameState → List GameState
  | [] => []
  | g :: rest => if g.id = gid then g2 :: rest else g :: replaceFirstGame gid g2 rest

/-- `GameController::handle_player_input`, parameterised over the injected rule
checker (`rule_checker.is_input_valid`).  Logging is effect-free on the modelled
state and is omitted.  Returned as (result, controller after the call). -/
def handle_player_input (gd : GameData)
    (checker : GameState → PlayerInput → Option String) (now : Nat)
    (input : PlayerInput) (c : GameController) :
    Except String GameState × GameController :=
  let c1 := remove_inactive_ids now (remove_empty_games c)
  if c1.unique_ids.any (fun e => decide (e.1 = input.player_id)) then
    match c1.games.find? (fun g => decide (g.id = input.game_id)) with
    | none => (.error "Could not find the game the player has done an input for!", c1)
    | some related_game =>
      match checker related_game input with
      | some err => (.error ("The input was not valid! Because: " ++ err), c1)
      | none =>
        match handle_input gd input related_game with
        | (.error e, g2) =>
          (.error e, { c1 with games := replaceFirstGame input.game_id g2 c1.games })
        | (.ok _, g2) =>
          let c2 := { c1 with games := replaceFirstGame input.game_id g2 c1.games }
          match apply_game_actions gd g2 with
          | .ok snapshot => (.ok snapshot, c2)
          | .error e => (.error e, c2)
  else
    (.error "There does not exist a player with the unique id", c1)

end Core

namespace Rules

abbrev PlayerID := Int
abbrev NodeID := Int
abbrev District := Nat
abbrev ErrorData := String

/-- Modelled from the spec: the role enum as seen by the rules crate. -/
inductive InGameID where
  | Undecided
  | PlayerOne
  | PlayerTwo
  | PlayerThree
  | PlayerFour
  | PlayerFive
  | Orchestrator
deriving DecidableEq, Repr

inductive RestrictionType where
  | ParkAndRide
  | OneWay
  | Destination
deriving DecidableEq, Repr

inductive DistrictModifierType where
  | Access
  | Priority
  | Toll
deriving DecidableEq, Repr

/-- The rules file's input-kind enum (the rule bindings in `get_rules` name all
of these variants). -/
inductive PlayerInputType where
  | Movement
  | ChangeRole
  | All
  | NextTurn
  | UndoAction
  | ModifyDistrict
  | StartGame
  | ModifyEdgeRestrictions
  | SetPlayerBusBool
  | LeaveGame
deriving DecidableEq, Repr

/-- Modelled from the spec: the objective card "grants special access rights"
(the special-vehicle-type permissions read by the rules) and carries the
player's objective, whose target district decides Destination restrictions. -/
structure ObjectiveCard where
  special_vehicle_types : List RestrictionType
  objective_district : Option District
deriving DecidableEq, Repr

structure Player where
  unique_id : PlayerID
  in_game_id : InGameID
  position_node_id : Option NodeID
  remaining_moves : Int
  is_bus : Bool
  objective_card : Option ObjectiveCard
  name : String
deriving DecidableEq, Repr

structure MapNode where
  id : NodeID
  is_parking_spot : Bool
  is_connected_to_rail : Bool
deriving DecidableEq, Repr

/-- A directed neighbour relationship, per the spec data model
`(from, to, restriction?, is_connected_through_rail, is_modifiable,
neighbourhood)` plus the movement cost the spec's cost model mentions
("decrements the acting player's remaining-moves counter by the edge's cost"). -/
structure NeighbourRelationship where
  to_node : NodeID
  restriction : Option RestrictionType
  neighbourhood : District
  is_connected_through_rail : Bool
  is_modifiable : Bool
  movement_cost : Nat
deriving DecidableEq, Repr

/-- Modelled from the spec: the map graph, nodes plus per-node adjacency lists
(the rules only query it through the two lookup functions below). -/
structure MapGraph where
  nodes : List MapNode
  neighbour_lists : List (NodeID × List NeighbourRelationship)
deriving DecidableEq, Repr

structure EdgeRestriction where
  node_one : NodeID
  node_two : NodeID
  edge_restriction : RestrictionType
  delete : Bool
deriving DecidableEq, Repr

structure DistrictModifier where
  district : District
  modifier : DistrictModifierType
  vehicle_type : Option RestrictionType
  delete : Bool
deriving DecidableEq, Repr

structure PlayerInput where
  player_id : PlayerID
  input_type : PlayerInputType
  related_node_id : Option NodeID
  related_bool : Option Bool
  edge_modifier : Option EdgeRestriction
deriving DecidableEq, Repr

structure GameState where
  is_lobby : Bool
  current_players_turn : InGameID
  players : List Player
  district_modifiers : List DistrictModifier
  map : MapGraph
deriving DecidableEq, Repr

/-- Modelled from the spec:
`Map::get_neighbour_relationships_of_node_with_id` returns the adjacency list of
the node, or nothing when the node has none. -/
def MapGraph.get_neighbour_relationships_of_node_with_id (m : MapGraph)
    (id : NodeID) : Option (List NeighbourRelationship) :=
  (m.neighbour_lists.find? (fun e => decide (e.1 = id))).map (fun e => e.2)

/-- Modelled from the spec: `Map::get_node_by_id`. -/
def MapGraph.get_node_by_id (m : MapGraph) (id : NodeID) : Except String MapNode :=
  match m.nodes.find? (fun n => decide (n.id = id)) with
  | some n => .ok n
  | none => .error "There is no node with the given id"

/-- Modelled from the spec: `Map::are_nodes_neighbours`. -/
def MapGraph.are_nodes_neighbours (m : MapGraph) (a b : NodeID) :
    Except String Bool :=
  match m.get_neighbour_relationships_of_node_with_id a with
  | some ns => .ok (ns.any (fun r => decide (r.to_node = b)))
  | none => .error "The node does not exist in the map"

/-- Modelled from the spec: `GameState::get_player_with_unique_id`. -/
def GameState.get_player_with_unique_id (g : GameState) (pid : PlayerID) :
    Except String Player :=
  match g.players.find? (fun p => decide (p.unique_id = pid)) with
  | some p => .ok p
  | none => .error "There is no player in the game with the given unique id"

/-- Modelled from the spec: `GameState::player_has_objective_in_district` holds
when the player currently holds an objective whose target lies in the given
district. -/
def GameState.player_has_objective_in_district (_m : MapGraph) (p : Player)
    (d : District) : Bool :=
  match p.objective_card with
  | some card => decide (card.objective_district = some d)
  | none => false

/-- Replace the first player carrying the given unique id. -/
def update_player_first (pid : PlayerID) (f : Player → Player) :
    List Player → List Player
  | [] => []
  | p :: rest =>
    if p.unique_id = pid then f p :: rest else p :: update_player_first pid f rest

/-- Modelled from the spec: `GameState::move_player_with_id` (missing
`game_data.rs`) moves the player to the target node and decrements the
remaining-moves counter by the edge's movement cost. -/
def GameState.move_player_with_id (g : GameState) (pid : PlayerID)
    (nid : NodeID) : Except String GameState :=
  match g.get_player_with_unique_id pid with
  | .error e => .error e
  | .ok p =>
    match p.position_node_id with
    | none => .error "The player does not have a position and can therefore not be moved"
    | some pos =>
      match g.map.get_neighbour_relationships_of_node_with_id pos with
      | none => .error "The players position does not have neighbours"
      | some ns =>
        match ns.find? (fun r => decide (r.to_node = nid)) with
        | none => .error "The node is not a neighbour of the players position"
        | some rel =>
          let upd := fun (q : Player) =>
            { q with
              position_node_id := some nid,
              remaining_moves := q.remaining_moves - rel.movement_cost }
          .ok { g with players := update_player_first pid upd g.players }

inductive ValidationResponse (T : Type) where
  | Valid
  | Invalid (e : T)
deriving DecidableEq, Repr

/-- `has_game_started`. -/
def has_game_started (g : GameState) (_pi : PlayerInput) :
    ValidationResponse String :=
  match g.is_lobby with
  | true => .Invalid "The game has not started yet!"
  | false => .Valid

/-- `has_non_negative_amount_of_moves_left`. -/
def has_non_negative_amount_of_moves_left (g : GameState) (p_in : PlayerInput) :
    ValidationResponse String :=
  match g.get_player_with_unique_id p_in.player_id with
  | .error e => .Invalid e
  | .ok player =>
    if player.remaining_moves < 0 then
      .Invalid "The player does not have enough remaining moves!"
    else .Valid

/-- `has_enough_moves`. -/
def has_enough_moves (g : GameState) (p_in : PlayerInput) :
    ValidationResponse String :=
  match g.get_player_with_unique_id p_in.player_id with
  | .error e => .Invalid e
  | .ok player =>
    if player.remaining_moves = 0 then
      .Invalid "The player has no remaining moves!"
    else
      match p_in.related_node_id with
      | none => .Invalid "There was no node to get cost to!"
      | some related_node_id =>
        match g.move_player_with_id p_in.player_id related_node_id with
        | .error e => .Invalid e
        | .ok game_clone => has_non_negative_amount_of_moves_left game_clone p_in

/-- The loop over the district modifiers inside `can_enter_district`, carrying
the `district_has_modifier` flag. -/
def district_access_loop (g : GameState) (player : Player)
    (card : ObjectiveCard) (rel : NeighbourRelationship) :
    List DistrictModifier → Bool → ValidationResponse String
  | [], hasMod =>
    if hasMod then
      .Invalid "Invalid move: Player does not have required vehicle type to access this district."
    else .Valid
  | dm :: rest, hasMod =>
    if dm.district ≠ rel.neighbourhood ∨ dm.modifier ≠ DistrictModifierType.Access then
      district_access_loop g player card rel rest hasMod
    else
      match dm.vehicle_type with
      | none => .Invalid "Error: There was no vehicle for access modifier"
      | some vehicle_type =>
        if card.special_vehicle_types.any (fun v => decide (v = vehicle_type)) ∨
            (vehicle_type = RestrictionType.Destination ∧
              GameState.player_has_objective_in_district g.map player dm.district) then
          .Valid
        else district_access_loop g player card rel rest true

/-- `can_enter_district`. -/
def can_enter_district (g : GameState) (p_in : PlayerInput) :
    ValidationResponse String :=
  match g.get_player_with_unique_id p_in.player_id with
  | .error e => .Invalid e
  | .ok player =>
    match player.objective_card with
    | none => .Invalid "Error: Player does not have an objective card"
    | some player_objective_card =>
      match player.position_node_id with
      | none => .Invalid "Error: Player does not have a valid position and can therefore not move"
      | some pos =>
        match g.map.get_neighbour_relationships_of_node_with_id pos with
        | none => .Invalid "Error: Node with the given ID does not exist"
        | some neighbours =>
          match p_in.related_node_id with
          | none => .Invalid "Error: Related node ID does not exist in player input and has to be set for player movement"
          | some to_node_id =>
            match neighbours.find? (fun n => decide (n.to_node = to_node_id)) with
            | none => .Invalid "Error: There is no neighbouring node with the ID given"
            | some neighbour_relationship =>
              district_access_loop g player player_objective_card
                neighbour_relationship g.district_modifiers false

/-- `has_position`. -/
def has_position (g : GameState) (p_in : PlayerInput) :
    ValidationResponse String :=
  match g.get_player_with_unique_id p_in.player_id with
  | .error e => .Invalid e
  | .ok p =>
    if p.position_node_id.isNone then
      .Invalid "The player does not have a position!"
    else .Valid

/-- `next_node_is_neighbour`. -/
def next_node_is_neighbour (g : GameState) (p_in : PlayerInput) :
    ValidationResponse String :=
  match g.get_player_with_unique_id p_in.player_id with
  | .error e => .Invalid e
  | .ok p =>
    match p.position_node_id with
    | none => .Invalid "The player does not have a position!"
    | some node_id =>
      match p_in.related_node_id with
      | none => .Invalid "There was no node to check if it is a neighbour!"
      | some related_node_id =>
        match g.map.are_nodes_neighbours node_id related_node_id with
        | .error e => .Invalid e
        | .ok are_neighbours =>
          if !are_neighbours then
            .Invalid "The node is not a neighbour of the players position!"
          else .Valid

/-- `is_players_turn`. -/
def is_players_turn (g : GameState) (p_in : PlayerInput) :
    ValidationResponse String :=
  if g.is_lobby ∨ p_in.input_type = PlayerInputType.LeaveGame then .Valid
  else
    match g.get_player_with_unique_id p_in.player_id with
    | .error e => .Invalid e
    | .ok player =>
      if g.current_players_turn ≠ player.in_game_id then
        .Invalid "It is not the current players turn"
      else .Valid

/-- `is_orchestrator`. -/
def is_orchestrator (g : GameState) (p_in : PlayerInput) :
    ValidationResponse String :=
  match g.get_player_with_unique_id p_in.player_id with
  | .error e => .Invalid e
  | .ok player =>
    if player.in_game_id ≠ InGameID.Orchestrator then
      .Invalid "The player is not the orchestrator of the game!"
    else .Valid

/-- `default_can_modify_edge_restriction`. -/
def default_can_modify_edge_restriction (edge_mod : EdgeRestriction)
    (neighbours_one : List NeighbourRelationship) (node_two_id : NodeID) :
    ValidationResponse String :=
  match neighbours_one.find? (fun r => decide (r.to_node = node_two_id)) with
  | none => .Invalid "The node does not have a neighbour with the given id!"
  | some relationship =>
    if edge_mod.delete then
      if relationship.is_modifiable then .Valid
      else .Invalid "An edge restriction already exists on the edge between the nodes or is not modifiable!"
    else if !relationship.is_modifiable then
      .Invalid "The edge between the nodes is not modifiable!"
    else .Valid

/-- `is_edge_modification_action_valid`. -/
def is_edge_modification_action_valid (g : GameState) (p_in : PlayerInput) :
    ValidationResponse String :=
  match p_in.edge_modifier with
  | none => .Invalid "There was no modifier on the edge modifier player input, and can therefore not check the input further!"
  | some edge_mod =>
    match g.map.get_neighbour_relationships_of_node_with_id edge_mod.node_one with
    | none => .Invalid "The first node does not have neighbours and can therefore not have restrictions!"
    | some neighbours_one =>
      match g.map.get_neighbour_relationships_of_node_with_id edge_mod.node_two with
      | none => .Invalid "The second node does not have neighbours and can therefore not have restrictions!"
      | some _neighbours_two =>
        default_can_modify_edge_restriction edge_mod neighbours_one edge_mod.node_two

/-- `can_move_to_node`. -/
def can_move_to_node (g : GameState) (p_in : PlayerInput) :
    ValidationResponse String :=
  match g.get_player_with_unique_id p_in.player_id with
  | .error e => .Invalid e
  | .ok player =>
    match player.position_node_id with
    | none => .Invalid "The player does not have a position and can therefore not check if it is a valid action!"
    | some player_pos =>
      match p_in.related_node_id with
      | none => .Invalid "There is no related node to the movement input. There needs to be a node if a players should move!"
      | some to_node_id =>
        match g.map.get_neighbour_relationships_of_node_with_id player_pos with
        | none => .Invalid "The node does not have neighbours and can therefore not have park and ride!"
        | some neighbours =>
          if player.is_bus then
            if neighbours.any (fun n =>
                decide (n.restriction = some RestrictionType.ParkAndRide) &&
                decide (n.to_node = to_node_id)) then
              .Valid
            else
              .Invalid "The player cannot move here because the node is not a neighbouring node connected with a park and ride edge!"
          else
            match g.map.get_node_by_id player_pos with
            | .error e => .Invalid (e ++ " And can therefore not check whether the player can move here!")
            | .ok current_node =>
              match g.map.get_node_by_id to_node_id with
              | .error e => .Invalid (e ++ " And can therefore not check whether the player can move here!")
              | .ok to_node =>
                if current_node.is_connected_to_rail ∧ to_node.is_connected_to_rail ∧
                    ¬ player.is_bus = true then
                  if neighbours.any (fun n =>
                      n.is_connected_through_rail && decide (n.to_node = to_node_id)) then
                    .Valid
                  else
                    .Invalid "The player cannot move here because the node is not a neighbouring node connected through the railway!"
                else if (¬ current_node.is_connected_to_rail = true ∨
                      ¬ to_node.is_connected_to_rail = true) ∧
                    neighbours.any (fun n =>
                      n.is_connected_through_rail && decide (n.to_node = to_node_id)) = true then
                  .Invalid "The player cannot move here because the node is a neighbouring node connected through the railway!"
                else
                  match neighbours.find? (fun n => decide (n.to_node = to_node_id)) with
                  | none => .Invalid "The node is not a neighbour of the players position and can therefore not be moved to!"
                  | some neighbour_relationship =>
                    match g.map.get_neighbour_relationships_of_node_with_id to_node_id with
                    | none => .Invalid "The target node does not have neighbours and can therefore not have park and ride!"
                    | some to_node_neighbours =>
                      if (match to_node_neighbours.find? (fun n => decide (n.to_node = player_pos)) with
                          | some back => decide (back.restriction = some RestrictionType.OneWay)
                          | none => false) then
                        .Invalid "The player cannot move to the node because it is a one way street in the opposite direction!"
                      else
                        match neighbour_relationship.restriction with
                        | some restriction =>
                          match player.objective_card with
                          | none => .Invalid "The player does not have an objective card and we can therefore not check if the player has access to the given zone!"
                          | some objective_card =>
                            if (¬ (objective_card.special_vehicle_types.any
                                    (fun v => decide (v = restriction)) = true ∨
                                  (restriction = RestrictionType.Destination ∧
                                    GameState.player_has_objective_in_district g.map player
                                      neighbour_relationship.neighbourhood = true))) ∧
                                restriction ≠ RestrictionType.OneWay then
                              .Invalid "The player does not have access to the edge and can therefore not move to the node!"
                            else .Valid
                        | none =>
                          match can_enter_district g p_in with
                          | .Invalid e => .Invalid e
                          | .Valid =>
                            if neighbours.any (fun n =>
                                decide (n.restriction = some RestrictionType.ParkAndRide) &&
                                decide (n.to_node = to_node_id)) then
                              .Invalid "The player cannot move here because it is a park and ride edge!"
                            else .Valid

/-- `can_toggle_bus`. -/
def can_toggle_bus (g : GameState) (p_in : PlayerInput) :
    ValidationResponse String :=
  match g.get_player_with_unique_id p_in.player_id with
  | .error e => .Invalid e
  | .ok player =>
    match p_in.related_bool with
    | none => .Invalid "Could not check if you can toggle bus because the related bool was not set."
    | some _ =>
      match player.position_node_id with
      | none => .Invalid "The player does not have a position and can therefore not check if it is a valid action!"
      | some player_pos =>
        match g.map.get_node_by_id player_pos with
        | .error e => .Invalid (e ++ " and can therefore not check whether the player can toggle bus!")
        | .ok node =>
          if !node.is_parking_spot then
            .Invalid "You cannot toggle bus if you are not on a parking spot!"
          else .Valid

/-- A rule: the input kinds it is bound to plus its validator. -/
structure Rule where
  related_inputs : List PlayerInputType
  rule_fn : GameState → PlayerInput → ValidationResponse String

/-- `GameRuleChecker::get_rules`: the fixed registration order. -/
def get_rules : List Rule :=
  [ { related_inputs := [PlayerInputType.Movement, PlayerInputType.ModifyDistrict,
        PlayerInputType.NextTurn, PlayerInputType.UndoAction],
      rule_fn := has_game_started },
    { related_inputs := [PlayerInputType.All], rule_fn := is_players_turn },
    { related_inputs := [PlayerInputType.StartGame,
        PlayerInputType.ModifyEdgeRestrictions, PlayerInputType.ModifyDistrict],
      rule_fn := is_orchestrator },
    { related_inputs := [PlayerInputType.Movement], rule_fn := has_position },
    { related_inputs := [PlayerInputType.SetPlayerBusBool], rule_fn := can_toggle_bus },
    { related_inputs := [PlayerInputType.Movement], rule_fn := next_node_is_neighbour },
    { related_inputs := [PlayerInputType.Movement], rule_fn := has_enough_moves },
    { related_inputs := [PlayerInputType.Movement], rule_fn := can_move_to_node },
    { related_inputs := [PlayerInputType.ModifyEdgeRestrictions],
      rule_fn := is_edge_modification_action_valid } ]

/-- The iteration of `GameRuleChecker::is_input_valid` over a rule list: skip a
rule when every one of its bound kinds is neither the input's kind nor the
wildcard; stop at the first applicable rule reporting invalidity. -/
def run_rules : List Rule → GameState → PlayerInput → Option String
  | [], _, _ => none
  | r :: rest, g, p_in =>
    if r.related_inputs.all (fun input_type =>
        decide (input_type ≠ p_in.input_type) && decide (input_type ≠ PlayerInputType.All)) then
      run_rules rest g p_in
    else
      match r.rule_fn g p_in with
      | .Valid => run_rules rest g p_in
      | .Invalid e => some e

/-- `GameRuleChecker::is_input_valid` over the registered rules. -/
def is_input_valid (g : GameState) (p_in : PlayerInput) : Option ErrorData :=
  run_rules get_rules g p_in

/-- A rule is applicable to an input when it is bound to the input's kind or
wildcard-bound. -/
def rule_applies (p_in : PlayerInput) (r : Rule) : Bool :=
  r.related_inputs.any (fun input_type =>
    decide (input_type = p_in.input_type) || decide (input_type = PlayerInputType.All))

/-- Specification-side evaluation: the reason of the first applicable rule that
reports invalidity, in registration order. -/
def first_applicable_failure (rules : List Rule) (g : GameState)
    (p_in : PlayerInput) : Option String :=
  (rules.filter (rule_applies p_in)).findSome? (fun r =>
    match r.rule_fn g p_in with
    | .Valid => none
    | .Invalid e => some e)

end Rules

/-! Concrete fixture values, used to evaluate the embedded operations at
explicit inputs (witnesses and counterexamples). -/

/-- A concrete instantiation of the abstract `game_data.rs` pieces, for
evaluating the controller at explicit inputs. -/
def sampleGameData : Core.GameData :=
  { move_player_with_id := fun _ _ g => .ok g
    assign_player_role := fun _ _ g => .ok g
    maxAccessModifierCount := 2
    maxPriorityModifierCount := 2
    maxTollModifierCount := 2 }

/-- A rule checker that accepts every input, for evaluating the controller. -/
def acceptAllChecker : Core.GameState → Core.PlayerInput → Option String :=
  fun _ _ => none

def corePlayer1 : Core.Player :=
  { unique_id := 1, in_game_id := Core.InGameID.Orchestrator, remaining_moves := 0 }

def corePlayer2 : Core.Player :=
  { unique_id := 2, in_game_id := Core.InGameID.PlayerOne, remaining_moves := 0 }

def baseGame : Core.GameState :=
  { id := 5
    name := "g"
    is_lobby := false
    players := [corePlayer1, corePlayer2]
    actions := []
    district_modifiers := []
    current_players_turn := Core.InGameID.Orchestrator }

def lobbyGame : Core.GameState := { baseGame with is_lobby := true }

def startedGame : Core.GameState := { lobbyGame with is_lobby := false }

def accessModifier : Core.DistrictModifier :=
  { district := 0, modifier := Core.DistrictModifierType.Access,
    vehicle_type := none, delete := false }

def accessInput : Core.PlayerInput :=
  { player_id := 1, game_id := 5, input_type := Core.PlayerInputType.ModifyDistrict,
    related_role := none, related_node_id := none,
    district_modifier := some accessModifier }

def nextTurnInput : Core.PlayerInput :=
  { player_id := 1, game_id := 5, input_type := Core.PlayerInputType.NextTurn,
    related_role := none, related_node_id := none, district_modifier := none }

def movementInput : Core.PlayerInput :=
  { player_id := 1, game_id := 5, input_type := Core.PlayerInputType.Movement,
    related_role := none, related_node_id := some 0, district_modifier := none }

def wildcardInput : Core.PlayerInput :=
  { player_id := 1, game_id := 5, input_type := Core.PlayerInputType.All,
    related_role := none, related_node_id := none, district_modifier := none }

/-- Controller holding one game (with a player) and one expired registry entry. -/
def ctrl0 : Core.GameController :=
  { games := [baseGame], unique_ids := [(1, 0)] }

def emptyLobbyGame : Core.GameState :=
  { id := 7
    name := "empty"
    is_lobby := true
    players := []
    actions := []
    district_modifiers := []
    current_players_turn := Core.InGameID.Orchestrator }

/-- Controller holding a zero-player lobby and an expired registry entry. -/
def ctrl9 : Core.GameController :=
  { games := [emptyLobbyGame], unique_ids := [(1, 0)] }

def mapNode0 : Rules.MapNode :=
  { id := 0, is_parking_spot := false, is_connected_to_rail := false }

def mapNode1 : Rules.MapNode :=
  { id := 1, is_parking_spot := false, is_connected_to_rail := false }

/-- An edge from node 0 to node 1 flagged Park-and-Ride and otherwise free. -/
def pnrRel : Rules.NeighbourRelationship :=
  { to_node := 1, restriction := some Rules.RestrictionType.ParkAndRide,
    neighbourhood := 0, is_connected_through_rail := false,
    is_modifiable := true, movement_cost := 1 }

def rulesMap : Rules.MapGraph :=
  { nodes := [mapNode0, mapNode1]
    neighbour_lists := [(0, [pnrRel]), (1, [])] }

/-- An objective card listing Park-and-Ride among its special vehicle types. -/
def pnrCard : Rules.ObjectiveCard :=
  { special_vehicle_types := [Rules.RestrictionType.ParkAndRide],
    objective_district := none }

def plainCard : Rules.ObjectiveCard :=
  { special_vehicle_types := [], objective_district := none }

/-- A non-bus player at node 0 whose card grants the Park-and-Ride permission. -/
def pnrCardPlayer : Rules.Player :=
  { unique_id := 1, in_game_id := Rules.InGameID.PlayerOne,
    position_node_id := some 0, remaining_moves := 3, is_bus := false,
    objective_card := some pnrCard, name := "p" }

def busPlayer : Rules.Player := { pnrCardPlayer with is_bus := true }

def plainPlayer : Rules.Player := { pnrCardPlayer with objective_card := some plainCard }

def pnrCardGame : Rules.GameState :=
  { is_lobby := false, current_players_turn := Rules.InGameID.PlayerOne,
    players := [pnrCardPlayer], district_modifiers := [], map := rulesMap }

def busGame : Rules.GameState := { pnrCardGame with players := [busPlayer] }

def plainGame : Rules.GameState := { pnrCardGame with players := [plainPlayer] }

def rulesMoveInput : Rules.PlayerInput :=
  { player_id := 1, input_type := Rules.PlayerInputType.Movement,
    related_node_id := some 1, related_bool := none, edge_modifier := none }

/-! Helper lemmas about the replay of staged action logs. -/

theorem applyActionsList_append (gd : Core.GameData) (xs ys : List Core.PlayerInput)
    (g : Core.GameState) :
    Core.applyActionsList gd (xs ++ ys) g =
      match Core.applyActionsList gd xs g with
      | .ok s => Core.applyActionsList gd ys s
      | .error e => .error e := by
  induction xs generalizing g with
  | nil => simp [Core.applyActionsList]
  | cons a rest ih =>
    simp only [List.cons_append, Core.applyActionsList]
    cases Core.apply_input gd a g with
    | ok g2 => exact ih g2
    | error e => rfl

theorem applyActionsList_take (gd : Core.GameData) :
    ∀ (l : List Core.PlayerInput) (g s : Core.GameState),
      Core.applyActionsList gd l g = .ok s →
      ∀ n, ∃ s2, Core.applyActionsList gd (l.take n) g = .ok s2 := by
  intro l
  induction l with
  | nil => exact fun g s _ n => ⟨g, by simp [Core.applyActionsList]⟩
  | cons a rest ih =>
    intro g s h n
    simp only [Core.applyActionsList] at h
    cases ha : Core.apply_input gd a g with
    | error e => rw [ha] at h; simp at h
    | ok g2 =>
      rw [ha] at h
      cases n with
      | zero => exact ⟨g, by simp [Core.applyActionsList]⟩
      | succ m =>
        obtain ⟨s2, hs2⟩ := ih g2 s h m
        exact ⟨s2, by simp only [List.take_succ_cons, Core.applyActionsList, ha]; exact hs2⟩

/-- C1: the claim says a non-delete `ModifyDistrict` addition succeeds while the
state holds strictly fewer than the cap of modifiers of that kind.  The source
guard is inverted (`max_amount >= count` instead of `count >= max_amount`), so
whenever the current count is at most the cap — in particular strictly below
it — the addition fails and nothing is appended, contradicting both the spec
and the source's own error message (which asserts the cap is already reached). -/
theorem c1_district_modifier_add_always_fails (gd : Core.GameData)
    (input : Core.PlayerInput) (g : Core.GameState) (dm : Core.DistrictModifier)
    (hdm : input.district_modifier = some dm) (hdel : dm.delete = false)
    (hcount : (g.district_modifiers.filter
        (fun m => decide (m.modifier = dm.modifier))).length ≤
      Core.max_modifier_amount gd dm.modifier) :
    Core.handle_district_restriction gd input g =
      Except.error "Cannot add more modifiers of this type because there are already the maximum amount of modifiers of that type!" := by
  simp [Core.handle_district_restriction, hdm, hdel, hcount]

/-- C1 witness: with an empty modifier list (count 0, strictly below the cap)
the addition of an Access modifier fails. -/
theorem c1_district_modifier_add_always_fails_witness :
    accessInput.district_modifier = some accessModifier ∧
    accessModifier.delete = false ∧
    (baseGame.district_modifiers.filter
        (fun m => decide (m.modifier = accessModifier.modifier))).length ≤
      Core.max_modifier_amount sampleGameData accessModifier.modifier ∧
    Core.handle_district_restriction sampleGameData accessInput baseGame =
      Except.error "Cannot add more modifiers of this type because there are already the maximum amount of modifiers of that type!" :=
  ⟨rfl, rfl, by decide,
    c1_district_modifier_add_always_fails sampleGameData accessInput baseGame
      accessModifier rfl rfl (by decide)⟩

/-- C2: handling a NextTurn input either fully commits — the full pending log
replays into a clone, the clone becomes the new state with the log cleared and
the turn advanced — or fails with the state and its log exactly as before. -/
theorem c2_next_turn_atomic (gd : Core.GameData) (input : Core.PlayerInput)
    (g : Core.GameState) (h : input.input_type = Core.PlayerInputType.NextTurn) :
    (∃ g2, Core.applyActionsList gd g.actions g = .ok g2 ∧
      Core.handle_input gd input g =
        (.ok (), Core.GameState.next_player_turn { g2 with actions := [] })) ∨
    (∃ e, Core.applyActionsList gd g.actions g = .error e ∧
      Core.handle_input gd input g =
        (.error (e ++ " No actions are applied to the game."), g)) := by
  cases hr : Core.applyActionsList gd g.actions g with
  | ok g2 =>
    exact Or.inl ⟨g2, rfl, by
      simp [Core.handle_input, h, Core.game_next_turn, Core.apply_game_actions, hr]⟩
  | error e =>
    exact Or.inr ⟨e, rfl, by
      simp [Core.handle_input, h, Core.game_next_turn, Core.apply_game_actions, hr]⟩

/-- C2 witness: on a game with an empty pending log, NextTurn commits. -/
theorem c2_next_turn_atomic_witness :
    nextTurnInput.input_type = Core.PlayerInputType.NextTurn ∧
    ((∃ g2, Core.applyActionsList sampleGameData baseGame.actions baseGame = .ok g2 ∧
        Core.handle_input sampleGameData nextTurnInput baseGame =
          (.ok (), Core.GameState.next_player_turn { g2 with actions := [] })) ∨
      (∃ e, Core.applyActionsList sampleGameData baseGame.actions baseGame = .error e ∧
        Core.handle_input sampleGameData nextTurnInput baseGame =
          (.error (e ++ " No actions are applied to the game."), baseGame))) :=
  ⟨rfl, c2_next_turn_atomic sampleGameData nextTurnInput baseGame rfl⟩

/-- C3: the claim says `start_game` resets every player's remaining-moves to the
configured starting value.  In the source the reset loop iterates the player
list by shared reference, so the stored players are never updated: on a
two-player lobby with an orchestrator, `start_game` succeeds and flips
`is_lobby`, but both players keep their stale remaining-moves (0) instead of
the configured starting value. -/
theorem c3_start_game_reset_lost :
    Core.start_game lobbyGame = (Except.ok startedGame, startedGame) ∧
    startedGame.is_lobby = false ∧
    (∀ p ∈ startedGame.players, p.remaining_moves = 0) ∧
    Core.get_starting_player_movement_value ≠ 0 :=
  ⟨rfl, rfl, by decide, by decide⟩

/-- C6 counterexample: the claim says a non-bus mover is rejected on any edge
flagged Park-and-Ride.  Here a non-bus player whose objective card lists
Park-and-Ride among its special vehicle types moves across an edge flagged
Park-and-Ride (and otherwise unrestricted) — and `can_move_to_node` accepts. -/
theorem c6_nonbus_parkandride_accepted :
    pnrCardPlayer.is_bus = false ∧
    pnrCardGame.get_player_with_unique_id rulesMoveInput.player_id = .ok pnrCardPlayer ∧
    rulesMoveInput.related_node_id = some 1 ∧
    pnrCardGame.map.get_neighbour_relationships_of_node_with_id 0 = some [pnrRel] ∧
    pnrRel.to_node = 1 ∧
    pnrRel.restriction = some Rules.RestrictionType.ParkAndRide ∧
    Rules.can_move_to_node pnrCardGame rulesMoveInput = Rules.ValidationResponse.Valid :=
  ⟨rfl, rfl, rfl, rfl, rfl, rfl, rfl⟩

/-- C6 (amended): for a bus-mode mover `can_move_to_node` accepts exactly when
some edge from the position to the target is flagged Park-and-Ride; for a
non-bus mover whose every edge to the target is flagged Park-and-Ride, the move
is rejected unless the mover's objective card lists Park-and-Ride among its
special vehicle types or the move is accepted by the rail-connection branch
(here excluded by requiring no rail edge to the target). -/
theorem c6_parkandride_amended :
    (∀ (g : Rules.GameState) (p_in : Rules.PlayerInput) (p : Rules.Player)
        (pos t : Rules.NodeID) (ns : List Rules.NeighbourRelationship),
      g.get_player_with_unique_id p_in.player_id = .ok p →
      p.is_bus = true →
      p.position_node_id = some pos →
      p_in.related_node_id = some t →
      g.map.get_neighbour_relationships_of_node_with_id pos = some ns →
      (Rules.can_move_to_node g p_in = Rules.ValidationResponse.Valid ↔
        ∃ rel ∈ ns, rel.restriction = some Rules.RestrictionType.ParkAndRide ∧
          rel.to_node = t)) ∧
    (∀ (g : Rules.GameState) (p_in : Rules.PlayerInput) (p : Rules.Player)
        (pos t : Rules.NodeID) (ns : List Rules.NeighbourRelationship),
      g.get_player_with_unique_id p_in.player_id = .ok p →
      p.is_bus = false →
      p.position_node_id = some pos →
      p_in.related_node_id = some t →
      g.map.get_neighbour_relationships_of_node_with_id pos = some ns →
      (∀ rel ∈ ns, rel.to_node = t →
        rel.restriction = some Rules.RestrictionType.ParkAndRide) →
      (∀ rel ∈ ns, rel.to_node = t → rel.is_connected_through_rail = false) →
      (∀ card, p.objective_card = some card →
        Rules.RestrictionType.ParkAndRide ∉ card.special_vehicle_types) →
      ∃ e, Rules.can_move_to_node g p_in = Rules.ValidationResponse.Invalid e) := by
  constructor
  · intro g p_in p pos t ns hp hbus hpos ht hns
    simp only [Rules.can_move_to_node, hp, hpos, ht, hns, hbus, if_true]
    by_cases hany : ns.any (fun n =>
        decide (n.restriction = some Rules.RestrictionType.ParkAndRide) &&
        decide (n.to_node = t))
    · rw [if_pos hany]
      simp only [List.any_eq_true, Bool.and_eq_true, decide_eq_true_eq] at hany
      exact ⟨fun _ => hany, fun _ => rfl⟩
    · rw [if_neg hany]
      constructor
      · intro hveq; exact Rules.ValidationResponse.noConfusion hveq
      · rintro ⟨rel, hmem, hres, hto⟩
        exact absurd (List.any_eq_true.mpr
          ⟨rel, hmem, by simp [hres, hto]⟩) hany
  · intro g p_in p pos t ns hp hbus hpos ht hns hpnr hnorail hcard
    by_cases hv : Rules.can_move_to_node g p_in = Rules.ValidationResponse.Valid
    case neg =>
      cases hres : Rules.can_move_to_node g p_in with
      | Valid => exact absurd hres hv
      | Invalid e => exact ⟨e, rfl⟩
    case pos =>
      exfalso
      have hanyrail : ns.any (fun n =>
          n.is_connected_through_rail && decide (n.to_node = t)) = false := by
        rw [List.any_eq_false]
        intro rel hmem
        by_cases hto : rel.to_node = t
        · simp [hnorail rel hmem hto]
        · simp [hto]
      simp only [Rules.can_move_to_node, hp, hpos, ht, hns, hbus,
        Bool.false_eq_true, if_false] at hv
      split at hv
      · exact Rules.ValidationResponse.noConfusion hv
      · split at hv
        · exact Rules.ValidationResponse.noConfusion hv
        · split at hv
          · rw [hanyrail] at hv
            simp only [Bool.false_eq_true, if_false] at hv
            exact Rules.ValidationResponse.noConfusion hv
          · split at hv
            · exact Rules.ValidationResponse.noConfusion hv
            · next hfind2 =>
              split at hv
              case h_1 => exact Rules.ValidationResponse.noConfusion hv
              case h_2 rel hfind =>
                have hmem : rel ∈ ns := List.mem_of_find?_eq_some hfind
                have hto : rel.to_node = t := by
                  have := List.find?_some hfind
                  simpa using this
                have hres : rel.restriction =
                    some Rules.RestrictionType.ParkAndRide := hpnr rel hmem hto
                simp only [hres] at hv
                split at hv
                · exact Rules.ValidationResponse.noConfusion hv
                · split at hv
                  · exact Rules.ValidationResponse.noConfusion hv
                  · split at hv
                    case h_1 => exact Rules.ValidationResponse.noConfusion hv
                    case h_2 card hcardEq =>
                      split at hv
                      · exact Rules.ValidationResponse.noConfusion hv
                      · next hcond =>
                        apply hcond
                        refine ⟨?_, by simp⟩
                        intro habs
                        rcases habs with habs | ⟨habs, _⟩
                        · have : Rules.RestrictionType.ParkAndRide ∈
                              card.special_vehicle_types := by
                            rcases List.any_eq_true.mp habs with ⟨v, hvmem, hveq⟩
                            have : v = Rules.RestrictionType.ParkAndRide := by
                              simpa using hveq
                            rwa [this] at hvmem
                          exact hcard card hcardEq this
                        · exact Rules.RestrictionType.noConfusion habs

/-- C6 witness: the bus characterisation and the guarded non-bus rejection
applied at concrete states. -/
theorem c6_parkandride_amended_witness :
    (Rules.can_move_to_node busGame rulesMoveInput = Rules.ValidationResponse.Valid ↔
      ∃ rel ∈ [pnrRel], rel.restriction = some Rules.RestrictionType.ParkAndRide ∧
        rel.to_node = 1) ∧
    (∃ e, Rules.can_move_to_node plainGame rulesMoveInput =
      Rules.ValidationResponse.Invalid e) :=
  ⟨c6_parkandride_amended.1 busGame rulesMoveInput busPlayer 0 1 [pnrRel]
      rfl rfl rfl rfl rfl,
   c6_parkandride_amended.2 plainGame rulesMoveInput plainPlayer 0 1 [pnrRel]
      rfl rfl rfl rfl rfl (by decide) (by decide)
      (fun card hc => by
        have hc2 : some plainCard = some card := hc
        have hpc : plainCard = card := by injection hc2
        rw [← hpc]; decide)⟩

/-- `update_player_first` rewrites exactly the player that `find?` locates,
provided the update preserves the unique id. -/
theorem find?_update_player_first (pid : Rules.PlayerID)
    (f : Rules.Player → Rules.Player)
    (hf : ∀ q, (f q).unique_id = q.unique_id) :
    ∀ (l : List Rules.Player) (p : Rules.Player),
      l.find? (fun q => decide (q.unique_id = pid)) = some p →
      (Rules.update_player_first pid f l).find?
        (fun q => decide (q.unique_id = pid)) = some (f p) := by
  intro l
  induction l with
  | nil => intro p h; cases h
  | cons q rest ih =>
    intro p h
    by_cases hq : q.unique_id = pid
    · have hqp : q = p := by
        rw [List.find?_cons_of_pos _ (by simpa using hq)] at h
        simpa using h
      rw [Rules.update_player_first, if_pos hq]
      rw [List.find?_cons_of_pos _ (by simp [hf q, hq]), hqp]
    · rw [List.find?_cons_of_neg _ (by simpa using hq)] at h
      rw [Rules.update_player_first, if_neg hq]
      rw [List.find?_cons_of_neg _ (by simpa using hq)]
      exact ih p h

/-- C7: the has-enough-moves rule validates a Movement input exactly when the
simulated move on a clone succeeds and leaves the acting player's remaining
moves non-negative on the simulated clone (and reports invalid with a reason
otherwise); stated under the spec-modelled cost assumption that every edge
costs at least one move. -/
theorem c7_has_enough_moves_simulated (g : Rules.GameState)
    (p_in : Rules.PlayerInput)
    (hcost : ∀ pr ∈ g.map.neighbour_lists, ∀ rel ∈ pr.2, 1 ≤ rel.movement_cost) :
    (Rules.has_enough_moves g p_in = Rules.ValidationResponse.Valid ↔
      ∃ nid g2 q, p_in.related_node_id = some nid ∧
        g.move_player_with_id p_in.player_id nid = .ok g2 ∧
        g2.get_player_with_unique_id p_in.player_id = .ok q ∧
        0 ≤ q.remaining_moves) ∧
    (Rules.has_enough_moves g p_in = Rules.ValidationResponse.Valid ∨
      ∃ e, Rules.has_enough_moves g p_in = Rules.ValidationResponse.Invalid e) := by
  constructor
  · constructor
    · intro h
      simp only [Rules.has_enough_moves] at h
      split at h
      · exact absurd h (by intro hx; exact Rules.ValidationResponse.noConfusion hx)
      · next player hp =>
        split at h
        · exact Rules.ValidationResponse.noConfusion h
        · split at h
          · exact Rules.ValidationResponse.noConfusion h
          · next nid hnid =>
            split at h
            · exact Rules.ValidationResponse.noConfusion h
            · next g2 hmove =>
              simp only [Rules.has_non_negative_amount_of_moves_left] at h
              split at h
              · exact Rules.ValidationResponse.noConfusion h
              · next q hq =>
                split at h
                · exact Rules.ValidationResponse.noConfusion h
                · next hge =>
                  exact ⟨nid, g2, q, hnid, hmove, hq, Int.not_lt.mp hge⟩
    · rintro ⟨nid, g2, q, hnid, hmove, hq, hge⟩
      -- dissect the successful simulated move
      have hm := hmove
      simp only [Rules.GameState.move_player_with_id] at hm
      split at hm
      · exact Except.noConfusion hm
      · next p hp =>
        split at hm
        · exact Except.noConfusion hm
        · next pos hpos =>
          split at hm
          · exact Except.noConfusion hm
          · next ns hns =>
            split at hm
            · exact Except.noConfusion hm
            · next rel hfind =>
              have hg2 : Rules.GameState.mk g.is_lobby g.current_players_turn
                  (Rules.update_player_first p_in.player_id
                    (fun q2 => { q2 with
                      position_node_id := some nid,
                      remaining_moves := q2.remaining_moves - rel.movement_cost })
                    g.players) g.district_modifiers g.map = g2 := by
                simpa using hm
              -- the relationship used by the move costs at least one
              have hcost1 : 1 ≤ rel.movement_cost := by
                have hns2 := hns
                simp only [Rules.MapGraph.get_neighbour_relationships_of_node_with_id,
                  Option.map_eq_some'] at hns2
                rcases hns2 with ⟨pr, hprfind, hpr2⟩
                have hprmem := List.mem_of_find?_eq_some hprfind
                have hrelmem : rel ∈ ns := List.mem_of_find?_eq_some hfind
                exact hcost pr hprmem rel (by rw [hpr2]; exact hrelmem)
              -- the player found before the move
              have hfp : g.players.find?
                  (fun q2 => decide (q2.unique_id = p_in.player_id)) = some p := by
                have hp2 := hp
                simp only [Rules.GameState.get_player_with_unique_id] at hp2
                split at hp2
                · next p3 hfound =>
                  have hp3 : p3 = p := by simpa using hp2
                  rw [← hp3]; exact hfound
                · exact Except.noConfusion hp2
              -- the player found after the move is the updated one
              have hq2 : q = { p with
                  position_node_id := some nid,
                  remaining_moves := p.remaining_moves - rel.movement_cost } := by
                have hupd := find?_update_player_first p_in.player_id
                  (fun q2 => { q2 with
                    position_node_id := some nid,
                    remaining_moves := q2.remaining_moves - rel.movement_cost })
                  (fun _ => rfl) g.players p hfp
                have hq3 := hq
                rw [← hg2] at hq3
                simp only [Rules.GameState.get_player_with_unique_id] at hq3
                rw [hupd] at hq3
                simpa using hq3.symm
              have hrm : 0 ≤ p.remaining_moves - (rel.movement_cost : Int) := by
                rw [hq2] at hge; exact hge
              have hc1 : (1 : Int) ≤ (rel.movement_cost : Int) := by
                exact_mod_cast hcost1
              have hnz : ¬ p.remaining_moves = 0 := by omega
              -- evaluate the rule
              simp only [Rules.has_enough_moves, hp, hnid, hmove]
              rw [if_neg hnz]
              simp only [Rules.has_non_negative_amount_of_moves_left, hq]
              rw [if_neg (Int.not_lt.mpr hge)]
  · cases hres : Rules.has_enough_moves g p_in with
    | Valid => exact Or.inl rfl
    | Invalid e => exact Or.inr ⟨e, rfl⟩

/-- C7 witness: on the concrete map (unit edge costs) the simulated move leaves
two moves, so the rule validates and the characterisation holds. -/
theorem c7_has_enough_moves_simulated_witness :
    (∀ pr ∈ plainGame.map.neighbour_lists, ∀ rel ∈ pr.2, 1 ≤ rel.movement_cost) ∧
    ((Rules.has_enough_moves plainGame rulesMoveInput = Rules.ValidationResponse.Valid ↔
      ∃ nid g2 q, rulesMoveInput.related_node_id = some nid ∧
        plainGame.move_player_with_id rulesMoveInput.player_id nid = .ok g2 ∧
        g2.get_player_with_unique_id rulesMoveInput.player_id = .ok q ∧
        0 ≤ q.remaining_moves) ∧
    (Rules.has_enough_moves plainGame rulesMoveInput = Rules.ValidationResponse.Valid ∨
      ∃ e, Rules.has_enough_moves plainGame rulesMoveInput =
        Rules.ValidationResponse.Invalid e)) :=
  ⟨by decide, c7_has_enough_moves_simulated plainGame rulesMoveInput (by decide)⟩

/-- C8 (amended): `handle_player_input` starts by purging expired registry
entries and already-empty games, but the purge does not cascade — it never
removes a purged player from the games that still list them; the resulting
controller's registry is exactly the filtered one, and its games are the
empty-game-filtered list with at most the addressed game replaced by the
outcome of the dispatched input. -/
theorem c8_purge_no_cascade (gd : Core.GameData)
    (checker : Core.GameState → Core.PlayerInput → Option String) (now : Nat)
    (input : Core.PlayerInput) (c : Core.GameController) :
    (Core.handle_player_input gd checker now input c).2.unique_ids =
      c.unique_ids.filter (fun e => decide (now - e.2 < Core.PLAYER_TIMEOUT)) ∧
    ((Core.handle_player_input gd checker now input c).2.games =
        c.games.filter (fun g => decide (0 < g.players.length)) ∨
      ∃ g2, (Core.handle_player_input gd checker now input c).2.games =
        Core.replaceFirstGame input.game_id g2
          (c.games.filter (fun g => decide (0 < g.players.length)))) := by
  simp only [Core.handle_player_input]
  split
  · split
    · exact ⟨rfl, Or.inl rfl⟩
    · split
      · exact ⟨rfl, Or.inl rfl⟩
      · split
        · exact ⟨rfl, Or.inr ⟨_, rfl⟩⟩
        · split
          · exact ⟨rfl, Or.inr ⟨_, rfl⟩⟩
          · exact ⟨rfl, Or.inr ⟨_, rfl⟩⟩
  · exact ⟨rfl, Or.inl rfl⟩

/-- C8 counterexample: a game whose only player's registry entry has expired.
The input-handling pass purges the registry entry, yet the game — left
untouched by the purge — still contains that player, contradicting the claimed
cascade ("the purged player is removed from any game containing them"). -/
theorem c8_purge_cascade_counterexample :
    ¬ ((100:Nat) - 0 < Core.PLAYER_TIMEOUT) ∧
    (Core.handle_player_input sampleGameData acceptAllChecker 100 accessInput
      ctrl0).2.unique_ids = [] ∧
    (Core.handle_player_input sampleGameData acceptAllChecker 100 accessInput
      ctrl0).2.games = [baseGame] ∧
    baseGame.players.any (fun p => decide (p.unique_id = accessInput.player_id)) = true :=
  ⟨by decide, rfl, rfl, by decide⟩

/-- C9 (amended): of the five query and maintenance operations, only
`update_check_in_and_remove_inactive` purges both expired identities and empty
games; `get_created_games` removes empty games but leaves the identity registry
untouched; `get_all_lobbies`, `get_game_by_id` and `remove_player_from_game`
purge nothing and report from or act on the unpurged collections. -/
theorem c9_queries_purge_characterisation (gd : Core.GameData)
    (c : Core.GameController) (now : Nat) (pid : Core.PlayerID)
    (gid : Core.GameID) (g : Core.GameState) :
    (Core.get_created_games c).2.unique_ids = c.unique_ids ∧
    (Core.get_created_games c).1 =
      c.games.filter (fun g2 => decide (0 < g2.players.length)) ∧
    Core.get_all_lobbies c = c.games.filter (fun g2 => g2.is_lobby) ∧
    (Core.remove_player_from_game pid c).unique_ids = c.unique_ids ∧
    (Core.update_check_in_and_remove_inactive now pid c).unique_ids =
      (c.unique_ids.map (fun e => if e.1 = pid then (e.1, now) else e)).filter
        (fun e => decide (now - e.2 < Core.PLAYER_TIMEOUT)) ∧
    (Core.update_check_in_and_remove_inactive now pid c).games =
      c.games.filter (fun g2 => decide (0 < g2.players.length)) ∧
    (c.games.find? (fun g2 => decide (g2.id = gid)) = some g →
      Core.get_game_by_id gd c gid = Core.apply_game_actions gd g) := by
  refine ⟨rfl, rfl, rfl, rfl, rfl, rfl, ?_⟩
  intro hfind
  simp [Core.get_game_by_id, hfind]

/-- C9 witness: `get_game_by_id` reports straight from the unpurged game list. -/
theorem c9_queries_purge_characterisation_witness :
    ctrl9.games.find? (fun g2 => decide (g2.id = 7)) = some emptyLobbyGame ∧
    Core.get_game_by_id sampleGameData ctrl9 7 =
      Core.apply_game_actions sampleGameData emptyLobbyGame :=
  ⟨rfl, (c9_queries_purge_characterisation sampleGameData ctrl9 100 1 7
    emptyLobbyGame).2.2.2.2.2.2 rfl⟩

/-- C9 counterexample: a controller holding a zero-player lobby and an expired
identity.  `get_all_lobbies` reports the empty game (so no empty-game purge ran
before reporting), and `remove_player_from_game` and `get_created_games` leave
the expired identity registered (so no identity purge ran), contradicting the
claim that all five operations trigger the expiry purge before reporting. -/
theorem c9_queries_no_purge_counterexample :
    Core.get_all_lobbies ctrl9 = [emptyLobbyGame] ∧
    emptyLobbyGame.players = [] ∧
    (Core.remove_player_from_game 1 ctrl9).unique_ids = [(1, 0)] ∧
    (Core.get_created_games ctrl9).2.unique_ids = [(1, 0)] ∧
    ¬ ((100:Nat) - 0 < Core.PLAYER_TIMEOUT) :=
  ⟨rfl, rfl, rfl, rfl, by decide⟩

/-- C10: dispatching an input of the wildcard kind `All` always fails: it is
never appended to the pending log, and the game state is left unchanged. -/
theorem c10_wildcard_input_always_fails (gd : Core.GameData)
    (input : Core.PlayerInput) (g : Core.GameState)
    (h : input.input_type = Core.PlayerInputType.All) :
    (∃ e, (Core.handle_input gd input g).1 = Except.error e) ∧
    (Core.handle_input gd input g).2 = g := by
  have hni : Core.handle_input gd input g =
      match Core.add_action gd input g with
      | .ok g2 => (.ok (), g2)
      | .error e => (.error e, g) := by
    simp [Core.handle_input, h]
  cases ha : Core.applyActionsList gd g.actions g with
  | error e =>
    have hadd : Core.add_action gd input g = .error e := by
      simp [Core.add_action, ha]
    rw [hni, hadd]
    exact ⟨⟨e, rfl⟩, rfl⟩
  | ok g1 =>
    have hadd : Core.add_action gd input g =
        .error "This input type should not be used by players" := by
      simp [Core.add_action, ha, Core.apply_input, h]
    rw [hni, hadd]
    exact ⟨⟨_, rfl⟩, rfl⟩

/-- C4: a Movement or ModifyDistrict input is appended to the pending log
exactly when replaying the whole existing log followed by the new input against
a clone of the authoritative state succeeds; otherwise the state is returned
unchanged with the replay error, and after a successful append every prefix of
the log replays cleanly from the (non-log content of the) authoritative state. -/
theorem c4_staging_consistency (gd : Core.GameData) (input : Core.PlayerInput)
    (g : Core.GameState)
    (h : input.input_type = Core.PlayerInputType.Movement ∨
      input.input_type = Core.PlayerInputType.ModifyDistrict) :
    (∀ e, Core.applyActionsList gd (g.actions ++ [input]) g = .error e →
      Core.handle_input gd input g = (.error e, g)) ∧
    (∀ s, Core.applyActionsList gd (g.actions ++ [input]) g = .ok s →
      Core.handle_input gd input g =
        (.ok (), { g with actions := g.actions ++ [input] }) ∧
      ∀ n, ∃ s2, Core.applyActionsList gd ((g.actions ++ [input]).take n) g = .ok s2) := by
  have hhi : Core.handle_input gd input g =
      match Core.add_action gd input g with
      | .ok g2 => (.ok (), g2)
      | .error e => (.error e, g) := by
    rcases h with h | h <;> simp [Core.handle_input, h]
  have hsplit := applyActionsList_append gd g.actions [input] g
  constructor
  · intro e he
    rw [hsplit] at he
    cases ha : Core.applyActionsList gd g.actions g with
    | error e0 =>
      rw [ha] at he
      simp only [Except.error.injEq] at he
      have hadd : Core.add_action gd input g = .error e := by
        simp [Core.add_action, ha, he]
      rw [hhi, hadd]
    | ok g1 =>
      rw [ha] at he
      simp only [Core.applyActionsList] at he
      cases hi : Core.apply_input gd input g1 with
      | ok g2 => rw [hi] at he; simp at he
      | error e1 =>
        rw [hi] at he
        simp only [Except.error.injEq] at he
        have hadd : Core.add_action gd input g = .error e := by
          simp [Core.add_action, ha, hi, he]
        rw [hhi, hadd]
  · intro s hs
    have hs0 := hs
    rw [hsplit] at hs
    cases ha : Core.applyActionsList gd g.actions g with
    | error e0 => rw [ha] at hs; simp at hs
    | ok g1 =>
      rw [ha] at hs
      simp only [Core.applyActionsList] at hs
      cases hi : Core.apply_input gd input g1 with
      | error e1 => rw [hi] at hs; simp at hs
      | ok g2 =>
        have hadd : Core.add_action gd input g =
            .ok { g with actions := g.actions ++ [input] } := by
          simp [Core.add_action, ha, hi]
        exact ⟨by rw [hhi, hadd], applyActionsList_take gd _ g s hs0⟩

/-- C4 witness: staging a Movement on a game with an empty pending log, with a
movement primitive that succeeds, appends the input. -/
theorem c4_staging_consistency_witness :
    (movementInput.input_type = Core.PlayerInputType.Movement ∨
      movementInput.input_type = Core.PlayerInputType.ModifyDistrict) ∧
    ((∀ e, Core.applyActionsList sampleGameData
        (baseGame.actions ++ [movementInput]) baseGame = .error e →
      Core.handle_input sampleGameData movementInput baseGame = (.error e, baseGame)) ∧
    (∀ s, Core.applyActionsList sampleGameData
        (baseGame.actions ++ [movementInput]) baseGame = .ok s →
      Core.handle_input sampleGameData movementInput baseGame =
        (.ok (), { baseGame with actions := baseGame.actions ++ [movementInput] }) ∧
      ∀ n, ∃ s2, Core.applyActionsList sampleGameData
        ((baseGame.actions ++ [movementInput]).take n) baseGame = .ok s2)) :=
  ⟨Or.inl rfl, c4_staging_consistency sampleGameData movementInput baseGame (Or.inl rfl)⟩

/-- The skip test of `run_rules` is the boolean negation of applicability. -/
theorem all_skip_eq_not_applies (l : List Rules.PlayerInputType)
    (p_in : Rules.PlayerInput) :
    (l.all (fun input_type =>
      decide (input_type ≠ p_in.input_type) &&
      decide (input_type ≠ Rules.PlayerInputType.All))) =
    !(l.any (fun input_type =>
      decide (input_type = p_in.input_type) ||
      decide (input_type = Rules.PlayerInputType.All))) := by
  induction l with
  | nil => rfl
  | cons t rest ih =>
    simp only [decide_not] at ih ⊢
    simp [List.all_cons, List.any_cons, ih, Bool.not_or]

/-- The rule iteration computes the first applicable failure, in order. -/
theorem run_rules_eq_first_failure (rules : List Rules.Rule) (g : Rules.GameState)
    (p_in : Rules.PlayerInput) :
    Rules.run_rules rules g p_in = Rules.first_applicable_failure rules g p_in := by
  induction rules with
  | nil => rfl
  | cons r rest ih =>
    have hcond : (r.related_inputs.all (fun input_type =>
        decide (input_type ≠ p_in.input_type) &&
        decide (input_type ≠ Rules.PlayerInputType.All))) =
      !(Rules.rule_applies p_in r) := all_skip_eq_not_applies r.related_inputs p_in
    by_cases hap : Rules.rule_applies p_in r
    · have hcF : (r.related_inputs.all (fun input_type =>
          decide (input_type ≠ p_in.input_type) &&
          decide (input_type ≠ Rules.PlayerInputType.All))) = false := by
        rw [hcond, hap]; rfl
      rw [Rules.run_rules, hcF]
      simp only [Bool.false_eq_true, if_false]
      have hfil : (r :: rest).filter (Rules.rule_applies p_in) =
          r :: rest.filter (Rules.rule_applies p_in) := by
        rw [List.filter_cons, if_pos hap]
      cases hr : r.rule_fn g p_in with
      | Valid =>
        rw [ih]
        simp only [Rules.first_applicable_failure, hfil, List.findSome?_cons, hr]
      | Invalid e =>
        simp only [Rules.first_applicable_failure, hfil, List.findSome?_cons, hr]
    · have hap2 : Rules.rule_applies p_in r = false := by
        cases hb : Rules.rule_applies p_in r
        · rfl
        · exact absurd hb hap
      have hcT : (r.related_inputs.all (fun input_type =>
          decide (input_type ≠ p_in.input_type) &&
          decide (input_type ≠ Rules.PlayerInputType.All))) = true := by
        rw [hcond, hap2]; rfl
      rw [Rules.run_rules, hcT, if_pos rfl, ih]
      have hfil : (r :: rest).filter (Rules.rule_applies p_in) =
          rest.filter (Rules.rule_applies p_in) := by
        rw [List.filter_cons, if_neg (by rw [hap2]; exact Bool.false_ne_true)]
      simp only [Rules.first_applicable_failure, hfil]

/-- C5: the rule engine holds its nine rules in the claimed registration order,
and evaluating an input returns exactly the reason of the first rule — in that
order — that is bound to the input's kind (or wildcard-bound) and reports
invalidity, with rules bound to other kinds skipped and rules after the first
failure never contributing; it returns none when every applicable rule reports
valid. -/
theorem c5_rule_order_and_short_circuit :
    Rules.get_rules.map Rules.Rule.rule_fn =
      [Rules.has_game_started, Rules.is_players_turn, Rules.is_orchestrator,
        Rules.has_position, Rules.can_toggle_bus, Rules.next_node_is_neighbour,
        Rules.has_enough_moves, Rules.can_move_to_node,
        Rules.is_edge_modification_action_valid] ∧
    ∀ g p_in, Rules.is_input_valid g p_in =
      Rules.first_applicable_failure Rules.get_rules g p_in :=
  ⟨rfl, fun g p_in => run_rules_eq_first_failure Rules.get_rules g p_in⟩

/-- C10 witness. -/
theorem c10_wildcard_input_always_fails_witness :
    wildcardInput.input_type = Core.PlayerInputType.All ∧
    ((∃ e, (Core.handle_input sampleGameData wildcardInput baseGame).1 = Except.error e) ∧
      (Core.handle_input sampleGameData wildcardInput baseGame).2 = baseGame) :=
  ⟨rfl, c10_wildcard_input_always_fails sampleGameData wildcardInput baseGame rfl⟩
